import Mathlib

/-!
Shallow embedding of the `opentracingrust` crate (span/baggage/reference
model, FileTracer backend, errors, global tracer) used to settle the
frozen claims C1..C10 about its specification.

Modelling conventions:

* Rust `std::collections::HashMap<String, V>` is modelled as an association
  list `List (String × V)` whose *content* (lookup/insert semantics) matches
  the Rust map: `insert` overwrites the value of an existing key in place and
  appends a fresh key.  The *iteration order* of a Rust `HashMap` is
  unspecified (randomised per process); theorems about code that iterates a
  map therefore quantify over an arbitrary enumeration (`List.Perm` of the
  entries) instead of fixing one.
* `std::time::SystemTime` is modelled as `Nat` (nanoseconds since the epoch).
* `f64` values and their decimal rendering are abstracted as a type
  parameter `F` together with rendering functions passed explicitly; no
  claim depends on float formatting.
* The type-erased `Box<dyn ImplContext>` with `Any` downcasting is modelled
  by making the whole development polymorphic in the backend context type
  `I` and in the backend's reference hook `hook : I → SpanReference I → I`:
  the crate documents that exactly one backend is active per process, so the
  dynamic dispatch always resolves to the single backend's implementations.
* The crossbeam unbounded channel used by `Span::finish` is modelled as a
  queue plus a `receiver_alive` flag; `send` fails (returning the value, as
  `crossbeam_channel::SendError` does) exactly when the receiving side has
  been dropped, which is the documented behaviour of the dependency.
-/

namespace Opentracing

/-! ## Association-list model of `HashMap<String, V>` -/

/-- Lookup in an association list: first entry with the given key
(Rust `HashMap::get`; keys are unique in every map the code builds). -/
def lookupB {V : Type} (k : String) : List (String × V) → Option V
  | [] => none
  | e :: rest => if e.1 = k then some e.2 else lookupB k rest

/-- Insert in an association list with Rust `HashMap::insert` content
semantics: overwrite the value of an existing key, append a new key. -/
def insertB {V : Type} (k : String) (v : V) (m : List (String × V)) :
    List (String × V) :=
  if m.any (fun e => e.1 = k) then
    m.map (fun e => if e.1 = k then (k, v) else e)
  else
    m ++ [(k, v)]

/-- Keys of an association list. -/
def keysB {V : Type} (m : List (String × V)) : List String :=
  m.map Prod.fst

/-- The keys of an association list are pairwise distinct. -/
abbrev NodupKeys {V : Type} (m : List (String × V)) : Prop :=
  (keysB m).Nodup

theorem lookupB_insertB_self {V : Type} (k : String) (v : V)
    (m : List (String × V)) : lookupB k (insertB k v m) = some v := by
  unfold insertB
  split
  · next hany =>
    induction m with
    | nil => simp at hany
    | cons e rest ih =>
      by_cases he : e.1 = k
      · simp [lookupB, he]
      · simp only [List.any_cons] at hany
        simp only [List.map_cons, if_neg he]
        simp only [lookupB, if_neg he]
        apply ih
        simpa [he] using hany
  · next hany =>
    induction m with
    | nil => simp [lookupB]
    | cons e rest ih =>
      simp only [List.any_cons, Bool.or_eq_true, decide_eq_true_eq] at hany
      push_neg at hany
      simp only [List.cons_append, lookupB, if_neg hany.1]
      exact ih (by simpa using hany.2)

theorem lookupB_map_overwrite {V : Type} (k k' : String) (v : V)
    (m : List (String × V)) (h : k' ≠ k) :
    lookupB k' (m.map (fun e => if e.1 = k then (k, v) else e)) =
      lookupB k' m := by
  induction m with
  | nil => rfl
  | cons e rest ih =>
    by_cases he : e.1 = k
    · have hne : ¬ (k = k') := fun hh => h hh.symm
      simp [lookupB, he, hne, ih]
    · simp only [List.map_cons, if_neg he, lookupB]
      split
      · rfl
      · exact ih

theorem lookupB_append_single {V : Type} (k k' : String) (v : V)
    (m : List (String × V)) (h : k' ≠ k) :
    lookupB k' (m ++ [(k, v)]) = lookupB k' m := by
  induction m with
  | nil =>
    have hne : ¬ (k = k') := fun hh => h hh.symm
    simp [lookupB, hne]
  | cons e rest ih =>
    simp only [List.cons_append, lookupB]
    split
    · rfl
    · exact ih

theorem lookupB_insertB_ne {V : Type} (k k' : String) (v : V)
    (m : List (String × V)) (h : k' ≠ k) :
    lookupB k' (insertB k v m) = lookupB k' m := by
  unfold insertB
  split
  · exact lookupB_map_overwrite k k' v m h
  · exact lookupB_append_single k k' v m h

theorem lookupB_mem {V : Type} {k : String} {v : V} {m : List (String × V)}
    (h : lookupB k m = some v) : (k, v) ∈ m := by
  induction m with
  | nil => simp [lookupB] at h
  | cons e rest ih =>
    simp only [lookupB] at h
    split at h
    · next he =>
      cases h
      have : e = (k, e.2) := by
        calc e = (e.1, e.2) := rfl
          _ = (k, e.2) := by rw [he]
      rw [this]
      exact List.mem_cons_self _ _
    · exact List.mem_cons_of_mem _ (ih h)

/-- Copy every entry of `src` into `dst`, overwriting on key collision.
This is the loop body of `Span::reference_span`
(`for (key, value) in parent.baggage_items() { set_baggage_item ... }`).
The enumeration order of `src` does not affect the result's content because
`src`, being a map, has pairwise-distinct keys. -/
def copyAll {V : Type} (src dst : List (String × V)) : List (String × V) :=
  src.foldl (fun acc e => insertB e.1 e.2 acc) dst

theorem copyAll_nil {V : Type} (dst : List (String × V)) :
    copyAll [] dst = dst := rfl

theorem copyAll_cons {V : Type} (e : String × V)
    (rest dst : List (String × V)) :
    copyAll (e :: rest) dst = copyAll rest (insertB e.1 e.2 dst) := rfl

theorem lookupB_copyAll_notMem {V : Type} (k : String)
    (src dst : List (String × V)) (h : k ∉ keysB src) :
    lookupB k (copyAll src dst) = lookupB k dst := by
  induction src generalizing dst with
  | nil => rfl
  | cons e rest ih =>
    simp only [keysB, List.map_cons, List.mem_cons] at h
    push_neg at h
    rw [copyAll_cons, ih _ (by simpa [keysB] using h.2)]
    exact lookupB_insertB_ne e.1 k e.2 dst (h.1)

theorem lookupB_copyAll_mem {V : Type} {k : String} {v : V}
    {src : List (String × V)} (dst : List (String × V))
    (hnd : NodupKeys src) (h : (k, v) ∈ src) :
    lookupB k (copyAll src dst) = some v := by
  induction src generalizing dst with
  | nil => simp at h
  | cons e rest ih =>
    have hnd2 : e.1 ∉ List.map Prod.fst rest ∧
        (List.map Prod.fst rest).Nodup := by
      simpa [NodupKeys, keysB] using hnd
    rcases List.mem_cons.mp h with he | hr
    · subst he
      rw [copyAll_cons]
      rw [lookupB_copyAll_notMem k rest _ (by simpa [keysB] using hnd2.1)]
      exact lookupB_insertB_self k v dst
    · rw [copyAll_cons]
      exact ih (insertB e.1 e.2 dst) hnd2.2 hr

/-! ## SpanContext, SpanReference and the backend hook

`src/span_context/mod.rs` and `src/span_context/impl_context.rs`.
The type-erased `Box<dyn ImplContext>` is modelled by the type parameter
`I`; the dynamically dispatched `ImplContext::reference_span` method is the
explicit `hook` argument threaded through the operations. -/

/-- The common span context: backend-specific inner context plus baggage
(`SpanContext` in `src/span_context/mod.rs`; `baggage` is a
`HashMap<String, String>`). -/
structure SpanContext (I : Type) where
  inner : I
  baggage : List (String × String)

/-- The two recognised relationships among span contexts
(`SpanReference` in `src/span/mod.rs`). -/
inductive SpanReference (I : Type) where
  | ChildOf (parent : SpanContext I)
  | FollowsFrom (parent : SpanContext I)

/-- The parent context carried by a reference (both constructors carry one;
the Rust code matches `ChildOf(ref parent) | FollowsFrom(ref parent)`). -/
def SpanReference.parent {I : Type} : SpanReference I → SpanContext I
  | .ChildOf p => p
  | .FollowsFrom p => p

/-- The backend's reference-update hook: `ImplContext::reference_span`
(`SpanReferenceAware::reference_span` for `ImplContextBox`-wrapped
contexts).  Rust dispatches it dynamically on the concrete backend context;
here it is a function on the backend context type `I`. -/
def Hook (I : Type) : Type := I → SpanReference I → I

/-- `SpanContext::new`: wraps a backend context with empty baggage. -/
def SpanContext.new {I : Type} (inner : I) : SpanContext I :=
  { inner := inner, baggage := [] }

/-- `SpanContext::set_baggage_item`: insert/overwrite (`HashMap::insert`). -/
def SpanContext.set_baggage_item {I : Type} (c : SpanContext I)
    (key value : String) : SpanContext I :=
  { c with baggage := insertB key value c.baggage }

/-- `SpanContext::get_baggage_item` (`HashMap::get`). -/
def SpanContext.get_baggage_item {I : Type} (c : SpanContext I)
    (key : String) : Option String :=
  lookupB key c.baggage

/-- `SpanContext::baggage_items`: the entries, in the map's (unspecified)
iteration order; here the internal list. -/
def SpanContext.baggage_items {I : Type} (c : SpanContext I) :
    List (String × String) :=
  c.baggage

/-- `SpanContext::reference_span`: delegates to the backend hook
(`self.inner.reference_span(reference)`), leaving the baggage untouched. -/
def SpanContext.reference_span {I : Type} (hook : Hook I)
    (c : SpanContext I) (r : SpanReference I) : SpanContext I :=
  { c with inner := hook c.inner r }

/-! ## Tags, logs, spans (`src/span/mod.rs`, `src/span/tag.rs`,
`src/span/log.rs`) -/

/-- Closed variant type for tag values (`TagValue` in `src/span/tag.rs`).
`F` abstracts `f64`. -/
inductive TagValue (F : Type) where
  | Boolean (b : Bool)
  | Float (f : F)
  | Integer (i : Int)
  | String (s : String)

/-- Closed variant type for log values (`LogValue` in `src/span/log.rs`). -/
inductive LogValue (F : Type) where
  | Boolean (b : Bool)
  | Float (f : F)
  | Integer (i : Int)
  | String (s : String)

/-- Structured log (`Log` in `src/span/log.rs`): fields are a
`HashMap<String, LogValue>`, plus an optional timestamp. -/
structure Log (F : Type) where
  fields : List (String × LogValue F)
  timestamp : Option Nat

/-- `Log::new`: empty fields, no timestamp. -/
def Log.new {F : Type} : Log F := { fields := [], timestamp := none }

/-- `Log::log`: insert/update a field (`HashMap::insert`). -/
def Log.log {F : Type} (lg : Log F) (key : String) (value : LogValue F) :
    Log F :=
  { lg with fields := insertB key value lg.fields }

/-- `Log::at`: set the timestamp (named `at_time` because `at` is reserved
in Lean). -/
def Log.at_time {F : Type} (lg : Log F) (timestamp : Nat) : Log F :=
  { lg with timestamp := some timestamp }

/-- `Log::at_or_now`: default the timestamp to `now` when unset. -/
def Log.at_or_now {F : Type} (now : Nat) (lg : Log F) : Log F :=
  match lg.timestamp with
  | none => { lg with timestamp := some now }
  | some _ => lg

/-- The in-flight span (`Span` in `src/span/mod.rs`).  The `sender` field
(the crossbeam sending half captured at construction) is modelled by
passing the channel state to `Span.finish` explicitly. -/
structure Span (I F : Type) where
  context : SpanContext I
  finish_time : Option Nat
  logs : List (Log F)
  name : String
  references : List (SpanReference I)
  start_time : Nat
  tags : List (String × TagValue F)

/-- Primitive steps performed by `Span::reference_span`, recorded as a
trace so that the order of effects (backend hook first, then the baggage
copy, then the reference push) is observable in the model. -/
inductive Event (I : Type) where
  | hookCalled (r : SpanReference I)
  | baggageSet (key value : String)
  | refPushed (r : SpanReference I)

/-- `Span::reference_span`, with its event trace.  Mirrors the source
statement by statement: (1) `self.context.reference_span(&reference)`
(the backend hook), (2) the `for (key, value) in parent.baggage_items()`
copy loop, (3) `self.references.push(reference)`. -/
def Span.reference_span_ev {I F : Type} (hook : Hook I) (s : Span I F)
    (r : SpanReference I) : Span I F × List (Event I) :=
  let ctx1 := s.context.reference_span hook r
  let pb := r.parent.baggage_items
  let ctx2 := { ctx1 with baggage := copyAll pb ctx1.baggage }
  ({ s with context := ctx2, references := s.references ++ [r] },
   Event.hookCalled r ::
     (pb.map (fun e => Event.baggageSet e.1 e.2) ++ [Event.refPushed r]))

/-- `Span::reference_span` (resulting state only). -/
def Span.reference_span {I F : Type} (hook : Hook I) (s : Span I F)
    (r : SpanReference I) : Span I F :=
  (s.reference_span_ev hook r).1

/-- `Span::child_of`. -/
def Span.child_of {I F : Type} (hook : Hook I) (s : Span I F)
    (parent : SpanContext I) : Span I F :=
  s.reference_span hook (SpanReference.ChildOf parent)

/-- `Span::follows`. -/
def Span.follows {I F : Type} (hook : Hook I) (s : Span I F)
    (parent : SpanContext I) : Span I F :=
  s.reference_span hook (SpanReference.FollowsFrom parent)

/-- `Span::set_baggage_item`. -/
def Span.set_baggage_item {I F : Type} (s : Span I F)
    (key value : String) : Span I F :=
  { s with context := s.context.set_baggage_item key value }

/-- `Span::get_baggage_item`. -/
def Span.get_baggage_item {I F : Type} (s : Span I F) (key : String) :
    Option String :=
  s.context.get_baggage_item key

/-- `Span::finish_time` (the setter method; named `set_finish_time` because
the field already uses the source name). -/
def Span.set_finish_time {I F : Type} (s : Span I F) (t : Nat) : Span I F :=
  { s with finish_time := some t }

/-- `Span::log`: timestamps the entry with `now` when unset and appends. -/
def Span.log {I F : Type} (now : Nat) (s : Span I F) (lg : Log F) :
    Span I F :=
  { s with logs := s.logs ++ [lg.at_or_now now] }

/-- `Span::tag` (`SpanTags::tag`, a `HashMap::insert`). -/
def Span.tag {I F : Type} (s : Span I F) (key : String)
    (value : TagValue F) : Span I F :=
  { s with tags := insertB key value s.tags }

/-- `StartOptions` (`src/span/mod.rs`): builder consumed by `Span::new`. -/
structure StartOptions (I : Type) where
  references : List (SpanReference I)
  start_time : Option Nat

/-- `StartOptions::default`: no references, no explicit start time. -/
def StartOptions.default {I : Type} : StartOptions I :=
  { references := [], start_time := none }

/-- `StartOptions::reference_span`: push a reference. -/
def StartOptions.reference_span {I : Type} (o : StartOptions I)
    (r : SpanReference I) : StartOptions I :=
  { o with references := o.references ++ [r] }

/-- `StartOptions::child_of`. -/
def StartOptions.child_of {I : Type} (o : StartOptions I)
    (parent : SpanContext I) : StartOptions I :=
  o.reference_span (SpanReference.ChildOf parent)

/-- `StartOptions::follows`. -/
def StartOptions.follows {I : Type} (o : StartOptions I)
    (parent : SpanContext I) : StartOptions I :=
  o.reference_span (SpanReference.FollowsFrom parent)

/-- `StartOptions::start_time` (setter; renamed for the same reason as
`Span.set_finish_time`). -/
def StartOptions.set_start_time {I : Type} (o : StartOptions I) (t : Nat) :
    StartOptions I :=
  { o with start_time := some t }

/-- `Span::new`: builds the initial span (start time defaulted to `now`)
and applies each `StartOptions` reference in order via
`Span::reference_span`. -/
def Span.new {I F : Type} (hook : Hook I) (now : Nat) (name : String)
    (context : SpanContext I) (options : StartOptions I) : Span I F :=
  options.references.foldl (fun sp r => sp.reference_span hook r)
    { context := context
      finish_time := none
      logs := []
      name := name
      references := []
      start_time := options.start_time.getD now
      tags := [] }

/-! ## Finished spans, errors and the completion channel
(`src/span/mod.rs`, `src/errors.rs`) -/

/-- Immutable snapshot produced by `Span::finish`
(`FinishedSpan` in `src/span/mod.rs`). -/
structure FinishedSpan (I F : Type) where
  context : SpanContext I
  finish_time : Nat
  logs : List (Log F)
  name : String
  references : List (SpanReference I)
  start_time : Nat
  tags : List (String × TagValue F)

/-- `crossbeam_channel::SendError<FinishedSpan>`: returned when the
receiving side has been dropped; carries the unsent value back. -/
structure SendError (I F : Type) where
  span : FinishedSpan I F

/-- The error kinds of Rust `std::num::ParseIntError`
(`IntErrorKind`), as produced by `str::parse::<u64>`. -/
inductive ParseIntError where
  | Empty
  | InvalidDigit
  | PosOverflow
deriving DecidableEq

/-- `Error` in `src/errors.rs`.  The `IoError` payload (an OS error) is
abstracted to its message; nothing in the claims inspects it. -/
inductive Error (I F : Type) where
  | IoError (msg : String)
  | Msg (msg : String)
  | ParseIntError (e : ParseIntError)
  | SendError (e : SendError I F)

/-- The `FinishedSpan` side of a crossbeam unbounded channel: the queue of
sent spans plus whether the receiving half is still alive. -/
structure Channel (I F : Type) where
  receiver_alive : Bool
  queue : List (FinishedSpan I F)

/-- `Sender::send`: enqueue when the receiver is alive, otherwise fail
returning the value (documented crossbeam behaviour; the dependency is
external to the crate). -/
def Channel.send {I F : Type} (ch : Channel I F) (fs : FinishedSpan I F) :
    Except (SendError I F) (Channel I F) :=
  if ch.receiver_alive then
    Except.ok { ch with queue := ch.queue ++ [fs] }
  else
    Except.error { span := fs }

/-- `Span::finish`: build the `FinishedSpan` (finish time = the explicitly
set value or `now`), send it through the captured sender, converting a
`SendError` via `From<SendError<FinishedSpan>> for Error`
(`src/errors.rs`).  Consumption of the span is type-level in Rust; the
model simply does not reuse `s`. -/
def Span.finish {I F : Type} (now : Nat) (s : Span I F) (ch : Channel I F) :
    Except (Error I F) (Channel I F) :=
  let finished : FinishedSpan I F :=
    { context := s.context
      finish_time := s.finish_time.getD now
      logs := s.logs
      name := s.name
      references := s.references
      start_time := s.start_time
      tags := s.tags }
  match ch.send finished with
  | Except.ok ch2 => Except.ok ch2
  | Except.error e => Except.error (Error.SendError e)

/-! ## Claims about the reference / baggage protocol -/

/-- Claim C1: for every parent `SpanContext` whose baggage holds `(k, v)`
and every `Span` that adds a reference to that parent via `child_of`,
`follows`, or a `StartOptions` reference of kind `ChildOf` or
`FollowsFrom`, after the reference is added the child span's context
baggage maps `k` to `v`. -/
theorem C1_baggage_forward_propagation {I F : Type} (hook : Hook I)
    (s : Span I F) (parent : SpanContext I) (k v : String)
    (now : Nat) (name : String) (ctx0 : SpanContext I)
    (hnd : NodupKeys parent.baggage)
    (hkv : parent.get_baggage_item k = some v) :
    (s.child_of hook parent).get_baggage_item k = some v ∧
    (s.follows hook parent).get_baggage_item k = some v ∧
    (Span.new (F := F) hook now name ctx0
      (StartOptions.default.child_of parent)).get_baggage_item k = some v ∧
    (Span.new (F := F) hook now name ctx0
      (StartOptions.default.follows parent)).get_baggage_item k = some v := by
  have hmem : (k, v) ∈ parent.baggage := lookupB_mem hkv
  exact ⟨lookupB_copyAll_mem _ hnd hmem, lookupB_copyAll_mem _ hnd hmem,
    lookupB_copyAll_mem _ hnd hmem, lookupB_copyAll_mem _ hnd hmem⟩

/-- Witness for C1 at a concrete parent holding `("a", "b")`. -/
theorem C1_witness :
    ((⟨⟨(), []⟩, none, [], "c", [], 0, []⟩ : Span Unit Unit).child_of
      (fun i _ => i) ⟨(), [("a", "b")]⟩).get_baggage_item "a" = some "b" :=
  (C1_baggage_forward_propagation (fun i _ => i)
    (⟨⟨(), []⟩, none, [], "c", [], 0, []⟩ : Span Unit Unit)
    ⟨(), [("a", "b")]⟩ "a" "b" 0 "c" ⟨(), []⟩
    (by decide) (by decide)).1

/-- Claim C2: `Span::reference_span` first invokes the backend hook (which
therefore observes the pre-copy state), then copies every baggage entry of
the parent into the span's context (overwriting on key collision), and
appends the reference to the span's reference list.  The event trace makes
the order of the three effects explicit. -/
theorem C2_reference_span_hook_before_copy {I F : Type} (hook : Hook I)
    (s : Span I F) (r : SpanReference I)
    (hnd : NodupKeys r.parent.baggage) :
    (s.reference_span_ev hook r).2 =
      Event.hookCalled r ::
        (r.parent.baggage.map (fun e => Event.baggageSet e.1 e.2) ++
          [Event.refPushed r]) ∧
    (s.reference_span_ev hook r).1.context.inner = hook s.context.inner r ∧
    (∀ k v, (k, v) ∈ r.parent.baggage →
      (s.reference_span_ev hook r).1.get_baggage_item k = some v) ∧
    (∀ k, k ∉ keysB r.parent.baggage →
      (s.reference_span_ev hook r).1.get_baggage_item k =
        s.get_baggage_item k) ∧
    (s.reference_span_ev hook r).1.references = s.references ++ [r] := by
  refine ⟨rfl, rfl, ?_, ?_, rfl⟩
  · intro k v hkv
    exact lookupB_copyAll_mem _ hnd hkv
  · intro k hk
    exact lookupB_copyAll_notMem k _ _ hk

/-- Witness for C2 at a concrete parent holding `("a", "b")`. -/
theorem C2_witness :
    ((⟨⟨(), []⟩, none, [], "c", [], 0, []⟩ : Span Unit Unit).reference_span_ev
      (fun i _ => i)
      (SpanReference.ChildOf ⟨(), [("a", "b")]⟩)).1.get_baggage_item "a" =
      some "b" :=
  (C2_reference_span_hook_before_copy (fun i _ => i)
    (⟨⟨(), []⟩, none, [], "c", [], 0, []⟩ : Span Unit Unit)
    (SpanReference.ChildOf ⟨(), [("a", "b")]⟩)
    (by decide)).2.2.1 "a" "b" (by decide)

/-- Claim C7: setting a baggage item on a child span after it was created
with a reference to a parent context leaves the parent's baggage
unchanged.  `Clone for SpanContext` deep-clones both the backend context
and the baggage map, and `Span::reference_span` copies the parent entries
by value (`key.clone(), value.clone()`), so in the model the parent is a
separate value that the child's mutation cannot reach: a key absent from
the parent before the child's `set_baggage_item` is still absent after. -/
theorem C7_non_backpropagation {I F : Type} (hook : Hook I) (s : Span I F)
    (parent : SpanContext I) (k v : String)
    (hnone : parent.get_baggage_item k = none) :
    ((s.child_of hook parent).set_baggage_item k v).get_baggage_item k =
      some v ∧
    ((s.follows hook parent).set_baggage_item k v).get_baggage_item k =
      some v ∧
    parent.get_baggage_item k = none :=
  ⟨lookupB_insertB_self k v _, lookupB_insertB_self k v _, hnone⟩

/-- Witness for C7: child sets `"x"` which the parent never held. -/
theorem C7_witness :
    (((⟨⟨(), []⟩, none, [], "c", [], 0, []⟩ : Span Unit Unit).child_of
        (fun i _ => i) ⟨(), [("a", "b")]⟩).set_baggage_item "x" "1"
      ).get_baggage_item "x" = some "1" ∧
    (SpanContext.mk () [("a", "b")]).get_baggage_item "x" = none :=
  ⟨(C7_non_backpropagation (fun i _ => i)
      (⟨⟨(), []⟩, none, [], "c", [], 0, []⟩ : Span Unit Unit)
      ⟨(), [("a", "b")]⟩ "x" "1" (by decide)).1,
   (C7_non_backpropagation (fun i _ => i)
      (⟨⟨(), []⟩, none, [], "c", [], 0, []⟩ : Span Unit Unit)
      ⟨(), [("a", "b")]⟩ "x" "1" (by decide)).2.2⟩

/-- Claim C3: `Span::finish` builds a `FinishedSpan` whose finish time is
the explicitly set value when `Span::finish_time(t)` was called and `now`
otherwise, sends it through the channel captured at construction, and
fails with an `Error::SendError` exactly when the receiving side has been
dropped; otherwise it succeeds with the span enqueued. -/
theorem C3_finish_send_error_kind {I F : Type} (now : Nat) (s : Span I F)
    (ch : Channel I F) :
    (ch.receiver_alive = true →
      ∃ fs : FinishedSpan I F,
        s.finish now ch = Except.ok { ch with queue := ch.queue ++ [fs] } ∧
        fs.finish_time = s.finish_time.getD now ∧
        fs.context = s.context ∧ fs.logs = s.logs ∧ fs.name = s.name ∧
        fs.references = s.references ∧ fs.start_time = s.start_time ∧
        fs.tags = s.tags) ∧
    (∀ t, ch.receiver_alive = true →
      ∃ fs : FinishedSpan I F,
        (s.set_finish_time t).finish now ch =
          Except.ok { ch with queue := ch.queue ++ [fs] } ∧
        fs.finish_time = t) ∧
    ((∃ e : SendError I F,
        s.finish now ch = Except.error (Error.SendError e) ∧
        e.span.finish_time = s.finish_time.getD now) ↔
      ch.receiver_alive = false) := by
  by_cases halive : ch.receiver_alive = true
  · refine ⟨fun _ => ⟨⟨s.context, s.finish_time.getD now, s.logs, s.name,
        s.references, s.start_time, s.tags⟩,
        ?_, rfl, rfl, rfl, rfl, rfl, rfl, rfl⟩,
      fun t _ => ⟨⟨s.context, t, s.logs, s.name,
        s.references, s.start_time, s.tags⟩, ?_, rfl⟩, ?_⟩
    · simp [Span.finish, Channel.send, halive]
    · simp [Span.finish, Channel.send, Span.set_finish_time, halive]
    · constructor
      · rintro ⟨e, he, -⟩
        simp [Span.finish, Channel.send, halive] at he
      · intro hfalse
        rw [halive] at hfalse
        cases hfalse
  · have hfalse : ch.receiver_alive = false := by
      simpa using halive
    refine ⟨fun h => absurd h halive, fun t h => absurd h halive, ?_⟩
    constructor
    · intro _
      exact hfalse
    · intro _
      refine ⟨⟨⟨s.context, s.finish_time.getD now, s.logs, s.name,
        s.references, s.start_time, s.tags⟩⟩, ?_, rfl⟩
      simp [Span.finish, Channel.send, hfalse]

/-- Witness for C3: a span with explicit finish time 7, once through a live
channel and once through a channel whose receiver is gone. -/
theorem C3_witness :
    (∃ fs : FinishedSpan Unit Unit,
      Span.finish 9
          ((⟨⟨(), []⟩, none, [], "c", [], 0, []⟩ : Span Unit
            Unit).set_finish_time 7) ⟨true, []⟩ =
        Except.ok ⟨true, ([] : List (FinishedSpan Unit Unit)) ++ [fs]⟩ ∧
      fs.finish_time = 7) ∧
    (∃ e : SendError Unit Unit,
      Span.finish 9 (⟨⟨(), []⟩, none, [], "c", [], 0, []⟩ : Span Unit Unit)
          ⟨false, []⟩ =
        Except.error (Error.SendError e) ∧
      e.span.finish_time = 9) :=
  ⟨(C3_finish_send_error_kind 9
      (⟨⟨(), []⟩, none, [], "c", [], 0, []⟩ : Span Unit Unit)
      ⟨true, []⟩).2.1 7 rfl,
   ((C3_finish_send_error_kind 9
      (⟨⟨(), []⟩, none, [], "c", [], 0, []⟩ : Span Unit Unit)
      ⟨false, []⟩).2.2.mpr rfl)⟩

/-! ## Global tracer singleton (`src/utils/global_tracer.rs`)

The singleton is a `static mut GLOBAL_TRACER: Option<Arc<Tracer>>`.  The
state is modelled as `Option T` (`T` abstracts the `Tracer`); an
`Arc::clone` handing out a handle to the same instance is modelled as
returning the stored value itself.  A Rust `panic!`/`expect` failure is
the `panicked` constructor. -/

/-- Outcome of an operation that may panic. -/
inductive PanicOr (α : Type) where
  | panicked (msg : String)
  | ok (a : α)
deriving DecidableEq

/-- `GlobalTracer::get`: `expect` on the stored option — panics when the
singleton was never initialised, otherwise returns a handle to the stored
tracer. -/
def GlobalTracer.get {T : Type} (st : Option T) : PanicOr T :=
  match st with
  | some t => PanicOr.ok t
  | none =>
    PanicOr.panicked
      "GlobalTracer not initialised, call GlobalTracer::init first"

/-- `GlobalTracer::init`: panics when already initialised, otherwise stores
the tracer and returns `GlobalTracer::get()` on the new state (the source
literally ends with `GlobalTracer::get()`).  Returns the new state paired
with the handle. -/
def GlobalTracer.init {T : Type} (tracer : T) (st : Option T) :
    PanicOr (Option T × T) :=
  match st with
  | some _ => PanicOr.panicked "GlobalTracer already initialised"
  | none =>
    match GlobalTracer.get (some tracer) with
    | PanicOr.ok t => PanicOr.ok (some tracer, t)
    | PanicOr.panicked m => PanicOr.panicked m

/-- Claim C8: `GlobalTracer::init` panics when a tracer is already
installed; `GlobalTracer::get` panics before any init; after a single
successful init every subsequent `get` succeeds and returns the same
stored instance.  `get` takes the state read-only and `init` panics on an
initialised state, so the state can never change after the first init;
thread-sharing of the immutable `Arc` handle is modelled by every `get`
reading the same state value. -/
theorem C8_global_tracer_state_machine {T : Type} (t : T) :
    (∀ x : T, GlobalTracer.init t (some x) =
      PanicOr.panicked "GlobalTracer already initialised") ∧
    GlobalTracer.get (T := T) none =
      PanicOr.panicked
        "GlobalTracer not initialised, call GlobalTracer::init first" ∧
    GlobalTracer.init t none = PanicOr.ok (some t, t) ∧
    GlobalTracer.get (some t) = PanicOr.ok t :=
  ⟨fun _ => rfl, rfl, rfl, rfl⟩

/-! ## FileTracer backend (`src/tracers/file.rs`) -/

/-- Inner `SpanContext` for `FileTracer` (`FileTracerContext`): the random
`u64` identifiers are modelled as `Nat` (no arithmetic is performed on
them; parsing bounds them below `2^64`). -/
structure FileTracerContext where
  trace_id : Nat
  span_id : Nat
deriving DecidableEq

/-- `SpanReferenceAware for FileTracerContext`: copy the parent's trace id
into this context, for both reference kinds; nothing else is touched.  The
source first downcasts the parent to `FileTracerContext` (panicking on a
foreign backend); in this typed model the parent is already concrete. -/
def FileTracerContext.reference_span (c : FileTracerContext)
    (r : SpanReference FileTracerContext) : FileTracerContext :=
  match r with
  | SpanReference.ChildOf parent =>
    { c with trace_id := parent.inner.trace_id }
  | SpanReference.FollowsFrom parent =>
    { c with trace_id := parent.inner.trace_id }

/-- The hook the `FileTracer` backend installs. -/
def fileHook : Hook FileTracerContext := FileTracerContext.reference_span

/-- Claim C5: adding a `ChildOf` or `FollowsFrom` reference to a parent
context created by `FileTracer` sets the referencing context's `trace_id`
to the parent's `trace_id` (both kinds) and leaves its own `span_id`
unchanged. -/
theorem C5_file_tracer_trace_id_inheritance
    (c parent : SpanContext FileTracerContext) :
    ((c.reference_span fileHook
        (SpanReference.ChildOf parent)).inner.trace_id =
          parent.inner.trace_id) ∧
    ((c.reference_span fileHook
        (SpanReference.FollowsFrom parent)).inner.trace_id =
          parent.inner.trace_id) ∧
    ((c.reference_span fileHook
        (SpanReference.ChildOf parent)).inner.span_id =
          c.inner.span_id) ∧
    ((c.reference_span fileHook
        (SpanReference.FollowsFrom parent)).inner.span_id =
          c.inner.span_id) :=
  ⟨rfl, rfl, rfl, rfl⟩

/-! ## Carriers (`src/carrier.rs`) and `str::parse::<u64>` -/

/-- An HTTP-headers / text-map carrier (`MapCarrier`, implemented for
`HashMap<String, String>` and `BTreeMap<String, String>`): association
list with map content semantics, as for baggage. -/
abbrev Carrier : Type := List (String × String)

/-- `MapCarrier::get`. -/
def Carrier.get (c : Carrier) (key : String) : Option String :=
  lookupB key c

/-- `MapCarrier::set`. -/
def Carrier.set (c : Carrier) (key value : String) : Carrier :=
  insertB key value c

/-- `MapCarrier::items`: every `(key, value)` pair, in the carrier's
(unspecified, for a `HashMap`) enumeration order — here the internal
list. -/
def Carrier.items (c : Carrier) : List (String × String) := c

/-- `ExtractFormat` (`src/carrier.rs`); the binary reader payload is not
needed by any claim. -/
inductive ExtractFormat where
  | Binary
  | HttpHeaders (carrier : Carrier)
  | TextMap (carrier : Carrier)

/-- `InjectFormat` (`src/carrier.rs`). -/
inductive InjectFormat where
  | Binary
  | HttpHeaders (carrier : Carrier)
  | TextMap (carrier : Carrier)

/-- Rust `str::starts_with` on string literals. -/
def strStarts (s p : String) : Bool :=
  p.data.isPrefixOf s.data

/-- Digit-accumulation loop of Rust `u64::from_str`: fails on the first
non-digit, fails with positive overflow when the accumulator would exceed
`u64::MAX`. -/
def parseDigits : List Char → Nat → Except ParseIntError Nat
  | [], acc => Except.ok acc
  | c :: rest, acc =>
    if c.isDigit then
      let acc2 := acc * 10 + (c.toNat - '0'.toNat)
      if acc2 < 2 ^ 64 then parseDigits rest acc2
      else Except.error ParseIntError.PosOverflow
    else Except.error ParseIntError.InvalidDigit

/-- Rust `str::parse::<u64>`: empty input is `Empty`; an optional leading
`+` sign; at least one digit must follow (a lone sign, a `-` sign or any
non-digit is `InvalidDigit`); overflow past `u64::MAX` is
`PosOverflow`. -/
def parseU64 (s : String) : Except ParseIntError Nat :=
  match s.data with
  | [] => Except.error ParseIntError.Empty
  | c :: rest =>
    let digits := if c = '+' then rest else c :: rest
    match digits with
    | [] => Except.error ParseIntError.InvalidDigit
    | _ :: _ => parseDigits digits 0

/-- Header field name `TraceID` (`TRACE_ID_KEY`). -/
def TRACE_ID_KEY : String := "TraceID"

/-- Header field name `SpanID` (`SPAN_ID_KEY`). -/
def SPAN_ID_KEY : String := "SpanID"

/-- Baggage header key marker `Baggage-` (`BAGGAGE_KEY_PREFIX` in the
source). -/
def BAGGAGE_KEY_START : String := "Baggage-"

/-- `FileTracer::extract` (`TracerInterface::extract` impl): only the
text-map/HTTP-headers formats are supported — on `HttpHeaders` decode
`TraceID` (absent ⇒ `Ok(None)`, malformed ⇒ `ParseIntError`), then
`SpanID` likewise, then load every carrier item whose key starts with
`Baggage-` as a baggage item (key kept verbatim, including the marker);
any other format panics.  NOTE (faithful to the source): the `TextMap`
format also panics in `extract`, the match arm only accepts
`HttpHeaders`. -/
def FileTracer.extract {F : Type} (fmt : ExtractFormat) :
    PanicOr (Except (Error FileTracerContext F)
      (Option (SpanContext FileTracerContext))) :=
  match fmt with
  | ExtractFormat.HttpHeaders carrier =>
    PanicOr.ok
      (match Carrier.get carrier TRACE_ID_KEY with
      | none => Except.ok none
      | some trace_str =>
        match parseU64 trace_str with
        | Except.error e => Except.error (Error.ParseIntError e)
        | Except.ok trace_id =>
          match Carrier.get carrier SPAN_ID_KEY with
          | none => Except.ok none
          | some span_str =>
            match parseU64 span_str with
            | Except.error e => Except.error (Error.ParseIntError e)
            | Except.ok span_id =>
              let ctx0 := SpanContext.new
                (FileTracerContext.mk trace_id span_id)
              Except.ok (some ((Carrier.items carrier).foldl
                (fun c kv =>
                  if strStarts kv.1 BAGGAGE_KEY_START then
                    c.set_baggage_item kv.1 kv.2
                  else c)
                ctx0)))
  | _ => PanicOr.panicked "Unsupported extraction format"

/-- Shared body of the two supported `FileTracer::inject` arms (the Rust
match binds `HttpHeaders(carrier) | TextMap(carrier)` to one body): write
`TraceID` and `SpanID` from the inner context and one carrier entry per
baggage item with `Baggage-` prepended to the key. -/
def FileTracer.injectInto (span_context : SpanContext FileTracerContext)
    (carrier : Carrier) : Carrier :=
  let c1 := carrier.set TRACE_ID_KEY (toString span_context.inner.trace_id)
  let c2 := c1.set SPAN_ID_KEY (toString span_context.inner.span_id)
  span_context.baggage_items.foldl
    (fun c kv => c.set (BAGGAGE_KEY_START ++ kv.1) kv.2) c2

/-- `FileTracer::inject`: on `HttpHeaders` or `TextMap` run the shared
body (the downcast of the inner context is type-level here); `Binary`
panics.  Returns the updated carrier (the Rust method mutates it in place
and returns `Ok(())`). -/
def FileTracer.inject {F : Type} (span_context : SpanContext FileTracerContext)
    (fmt : InjectFormat) :
    PanicOr (Except (Error FileTracerContext F) Carrier) :=
  match fmt with
  | InjectFormat.HttpHeaders carrier =>
    PanicOr.ok (Except.ok (FileTracer.injectInto span_context carrier))
  | InjectFormat.TextMap carrier =>
    PanicOr.ok (Except.ok (FileTracer.injectInto span_context carrier))
  | InjectFormat.Binary => PanicOr.panicked "Unsupported injection format"

/-- Evaluation fact: `"abc".parse::<u64>()` fails at the first non-digit. -/
theorem parseU64_abc :
    parseU64 "abc" = Except.error ParseIntError.InvalidDigit := rfl

/-- Claim C4: for the `FileTracer`, extracting from an HTTP-headers
carrier without a `TraceID` field yields `Ok(None)` (absence is not an
error), while a carrier whose `TraceID` parses but whose `SpanID` holds
the non-numeric string `"abc"` yields `Err(Error::ParseIntError(_))`. -/
theorem C4_extract_soft_miss_vs_parse_error {F : Type} (carrier : Carrier)
    (t : String) (n : Nat) :
    (Carrier.get carrier TRACE_ID_KEY = none →
      FileTracer.extract (F := F) (ExtractFormat.HttpHeaders carrier) =
        PanicOr.ok (Except.ok none)) ∧
    (Carrier.get carrier TRACE_ID_KEY = some t →
      parseU64 t = Except.ok n →
      Carrier.get carrier SPAN_ID_KEY = some "abc" →
      FileTracer.extract (F := F) (ExtractFormat.HttpHeaders carrier) =
        PanicOr.ok (Except.error
          (Error.ParseIntError ParseIntError.InvalidDigit))) := by
  constructor
  · intro h1
    simp [FileTracer.extract, h1]
  · intro h1 h2 h3
    simp [FileTracer.extract, h1, h2, h3, parseU64_abc]

/-- Witness for C4: the empty carrier (no `TraceID`) and the carrier
`{TraceID: 123, SpanID: abc}`. -/
theorem C4_witness :
    FileTracer.extract (F := Unit) (ExtractFormat.HttpHeaders []) =
      PanicOr.ok (Except.ok none) ∧
    FileTracer.extract (F := Unit) (ExtractFormat.HttpHeaders
        [("TraceID", "123"), ("SpanID", "abc")]) =
      PanicOr.ok (Except.error
        (Error.ParseIntError ParseIntError.InvalidDigit)) :=
  ⟨(C4_extract_soft_miss_vs_parse_error [] "123" 123).1 rfl,
   (C4_extract_soft_miss_vs_parse_error
      [("TraceID", "123"), ("SpanID", "abc")] "123" 123).2
    rfl rfl rfl⟩

/-- The baggage-loading loop of `FileTracer::extract`. -/
def loadBaggage (items : List (String × String))
    (c0 : SpanContext FileTracerContext) : SpanContext FileTracerContext :=
  items.foldl
    (fun c kv =>
      if strStarts kv.1 BAGGAGE_KEY_START then c.set_baggage_item kv.1 kv.2
      else c)
    c0

theorem loadBaggage_lookup_notMem (k : String)
    (items : List (String × String)) (c0 : SpanContext FileTracerContext)
    (h : k ∉ keysB items) :
    (loadBaggage items c0).get_baggage_item k = c0.get_baggage_item k := by
  induction items generalizing c0 with
  | nil => rfl
  | cons e rest ih =>
    simp only [keysB, List.map_cons, List.mem_cons] at h
    push_neg at h
    show (loadBaggage rest _).get_baggage_item k = _
    rw [ih _ (by simpa [keysB] using h.2)]
    by_cases hs : strStarts e.1 BAGGAGE_KEY_START
    · simp only [hs, if_true]
      exact lookupB_insertB_ne e.1 k e.2 c0.baggage h.1
    · simp [hs]

theorem loadBaggage_lookup_mem {k v : String}
    {items : List (String × String)} (c0 : SpanContext FileTracerContext)
    (hnd : NodupKeys items) (hmem : (k, v) ∈ items)
    (hs : strStarts k BAGGAGE_KEY_START = true) :
    (loadBaggage items c0).get_baggage_item k = some v := by
  induction items generalizing c0 with
  | nil => simp at hmem
  | cons e rest ih =>
    have hnd2 : e.1 ∉ List.map Prod.fst rest ∧
        (List.map Prod.fst rest).Nodup := by
      simpa [NodupKeys, keysB] using hnd
    rcases List.mem_cons.mp hmem with he | hr
    · subst he
      show (loadBaggage rest _).get_baggage_item k = some v
      rw [loadBaggage_lookup_notMem k rest _ (by simpa [keysB] using hnd2.1)]
      simp only [hs, if_true]
      exact lookupB_insertB_self k v c0.baggage
    · show (loadBaggage rest _).get_baggage_item k = some v
      exact ih _ hnd2.2 hr


/-- Claim C10: `FileTracer::extract` keeps baggage keys verbatim — it does
not strip the `Baggage-` marker — so a carrier entry `Baggage-X ↦ v`
becomes the baggage item `Baggage-X ↦ v` of the extracted context; and
since `FileTracer::inject` prepends `Baggage-` to every baggage key,
injecting an extracted context writes the doubled key `Baggage-Baggage-X`
(and no `Baggage-X`), so inject after extract is not the identity on the
carrier's baggage keys. -/
theorem C10_extract_inject_doubles_baggage_keys {F : Type} :
    (∀ (carrier : Carrier) (t sid v : String) (n m : Nat),
      Carrier.get carrier TRACE_ID_KEY = some t →
      parseU64 t = Except.ok n →
      Carrier.get carrier SPAN_ID_KEY = some sid →
      parseU64 sid = Except.ok m →
      NodupKeys carrier →
      ("Baggage-X", v) ∈ carrier →
      ∃ ctx : SpanContext FileTracerContext,
        FileTracer.extract (F := F) (ExtractFormat.HttpHeaders carrier) =
          PanicOr.ok (Except.ok (some ctx)) ∧
        ctx.get_baggage_item "Baggage-X" = some v) ∧
    (∀ v : String,
      ∃ ctx : SpanContext FileTracerContext,
        FileTracer.extract (F := F) (ExtractFormat.HttpHeaders
            [("TraceID", "123"), ("SpanID", "456"), ("Baggage-X", v)]) =
          PanicOr.ok (Except.ok (some ctx)) ∧
        ctx.get_baggage_item "Baggage-X" = some v ∧
        ∃ c2 : Carrier,
          FileTracer.inject (F := F) ctx (InjectFormat.HttpHeaders []) =
            PanicOr.ok (Except.ok c2) ∧
          c2.get "Baggage-Baggage-X" = some v ∧
          c2.get "Baggage-X" = none) := by
  constructor
  · intro carrier t sid v n m h1 h2 h3 h4 hnd hmem
    refine ⟨loadBaggage (Carrier.items carrier)
      (SpanContext.new (FileTracerContext.mk n m)), ?_, ?_⟩
    · simp [FileTracer.extract, h1, h2, h3, h4, loadBaggage]
    · exact loadBaggage_lookup_mem _ hnd hmem rfl
  · intro v
    refine ⟨⟨⟨123, 456⟩, [("Baggage-X", v)]⟩, rfl, rfl,
      ⟨[("TraceID", "123"), ("SpanID", "456"), ("Baggage-Baggage-X", v)],
        ?_, rfl, rfl⟩⟩
    unfold FileTracer.inject FileTracer.injectInto
    simp [Carrier.set, SpanContext.baggage_items, insertB, TRACE_ID_KEY,
      SPAN_ID_KEY, BAGGAGE_KEY_START]
    norm_num [toString]
    exact ⟨rfl, rfl⟩

/-- Witness for C10 at the concrete carrier
`{TraceID: 123, SpanID: 456, Baggage-X: v}` with `v = "val"`. -/
theorem C10_witness :
    ∃ ctx : SpanContext FileTracerContext,
      FileTracer.extract (F := Unit) (ExtractFormat.HttpHeaders
          [("TraceID", "123"), ("SpanID", "456"), ("Baggage-X", "val")]) =
        PanicOr.ok (Except.ok (some ctx)) ∧
      ctx.get_baggage_item "Baggage-X" = some "val" :=
  (C10_extract_inject_doubles_baggage_keys (F := Unit)).1
    [("TraceID", "123"), ("SpanID", "456"), ("Baggage-X", "val")]
    "123" "456" "val" 123 456 rfl rfl rfl rfl (by decide) (by decide)

/-! ## `FileTracer::write_trace` (`src/tracers/file.rs`)

The serialiser collects the tag map into a `Vec` and sorts it by key
(`tags.sort_by_key`), and does the same for each log's field map; the
reference `Vec` is emitted in order; the baggage `HashMap` is iterated
*without* sorting, so its (unspecified) enumeration order is a parameter
`bagOrder` constrained to be a permutation of the stored entries.  The
float rendering of tag/log values and of the duration line is abstracted
(`fshow` / `dshow`); the `duration_since(...).unwrap()` and
`log.timestamp().unwrap()` panics cannot occur for spans produced by
`Span::finish` after `Span::log`, and are modelled totally (`dshow` takes
both times; a missing timestamp renders as 0). -/

/-- Key order used by `sort_by_key(|&(k, _)| k)`. -/
def keyLE {α : Type} (a b : String × α) : Prop := a.1 ≤ b.1

instance {α : Type} : DecidableRel (keyLE (α := α)) :=
  fun a b => inferInstanceAs (Decidable (a.1 ≤ b.1))

instance {α : Type} : IsTotal (String × α) keyLE :=
  ⟨fun a b => le_total a.1 b.1⟩

instance {α : Type} : IsTrans (String × α) keyLE :=
  ⟨fun _ _ _ h1 h2 => le_trans h1 h2⟩

/-- Rust `Vec::sort_by_key(|&(k, _)| k)`: a stable sort by key.  All the
key/value vectors the serialiser sorts come from maps and so have
pairwise-distinct keys, for which every stable sort yields this unique
sorted permutation. -/
def sortByKey {α : Type} (l : List (String × α)) : List (String × α) :=
  List.insertionSort keyLE l

theorem sortByKey_perm {α : Type} (l : List (String × α)) :
    (sortByKey l).Perm l :=
  List.perm_insertionSort keyLE l

theorem sortByKey_sorted {α : Type} (l : List (String × α)) :
    List.Sorted keyLE (sortByKey l) :=
  List.sorted_insertionSort keyLE l

/-- Stringification of a tag value (the `match value { ... to_string ... }`
in `write_trace`); floats go through the abstract `fshow`. -/
def showTagValue {F : Type} (fshow : F → String) : TagValue F → String
  | TagValue.Boolean v => toString v
  | TagValue.Float v => fshow v
  | TagValue.Integer v => toString v
  | TagValue.String v => v

/-- Stringification of a log value. -/
def showLogValue {F : Type} (fshow : F → String) : LogValue F → String
  | LogValue.Boolean v => toString v
  | LogValue.Float v => fshow v
  | LogValue.Integer v => toString v
  | LogValue.String v => v

/-- One reference line: `===>   * Child of span ID: <id>` or
`===>   * Follows from span ID: <id>` (the parent's downcast span id). -/
def refLine : SpanReference FileTracerContext → String
  | SpanReference.ChildOf p =>
    "===>   * Child of span ID: " ++ toString p.inner.span_id
  | SpanReference.FollowsFrom p =>
    "===>   * Follows from span ID: " ++ toString p.inner.span_id

/-- One baggage line: `===>   * <key>: <value>`. -/
def bagLine (e : String × String) : String :=
  "===>   * " ++ e.1 ++ ": " ++ e.2

/-- One tag line: `===>   * <key>: <stringified value>`. -/
def tagLine {F : Type} (fshow : F → String) (e : String × TagValue F) :
    String :=
  "===>   * " ++ e.1 ++ ": " ++ showTagValue fshow e.2

/-- The lines of one log entry: timestamp header (unix seconds, i.e.
nanoseconds / 10^9) followed by its fields sorted by key. -/
def logLines {F : Type} (fshow : F → String) (lg : Log F) : List String :=
  ("===>   - " ++ toString (lg.timestamp.getD 0 / 1000000000) ++ ":") ::
    (sortByKey lg.fields).map
      (fun e => "===>     * " ++ e.1 ++ ": " ++ showLogValue fshow e.2)

/-- `FileTracer::write_trace`, as the list of output lines (each
`buffer.push_str(&format!("...\n"))` is one line).  `bagOrder` is the
enumeration order the baggage `HashMap` happens to yield. -/
def write_trace {F : Type} (fshow : F → String) (dshow : Nat → Nat → String)
    (span : FinishedSpan FileTracerContext F)
    (bagOrder : List (String × String)) : List String :=
  ["==>> Trace ID: " ++ toString span.context.inner.trace_id,
   "===> Span ID: " ++ toString span.context.inner.span_id,
   "===> Span Duration: " ++ dshow span.start_time span.finish_time,
   "===> References: ["]
  ++ span.references.map refLine
  ++ ["===> ]", "===> Baggage items: ["]
  ++ bagOrder.map bagLine
  ++ ["===> ]", "===> Tags: ["]
  ++ (sortByKey span.tags).map (tagLine fshow)
  ++ ["===> ]", "===> Logs: ["]
  ++ (span.logs.map (logLines fshow)).flatten
  ++ ["===> ]"]

/-- A concrete span for C6: a `FileTracer`-backed root span that inserted
the baggage items `a ↦ 1` and then `b ↦ 2` (fresh keys, so the map holds
exactly these two entries). -/
def c6inner : Span FileTracerContext Unit :=
  ((Span.new fileHook 0 "test" (SpanContext.new ⟨1, 2⟩)
      StartOptions.default).set_baggage_item "a" "1").set_baggage_item
    "b" "2"

/-- The snapshot `Span::finish` would enqueue for `c6inner` at time 5
(the record built in `Span::finish`). -/
def c6span : FinishedSpan FileTracerContext Unit :=
  { context := c6inner.context
    finish_time := 5
    logs := c6inner.logs
    name := c6inner.name
    references := c6inner.references
    start_time := c6inner.start_time
    tags := c6inner.tags }

/-- Counterexample to claim C6 as stated: the baggage-items block is NOT
guaranteed to be emitted in insertion order.  The baggage lives in a
`std::collections::HashMap`, whose iteration order is unspecified;
`[("b","2"), ("a","1")]` is an admissible enumeration (a permutation of
the stored entries) of a map that inserted `a` before `b`, and
`write_trace` then emits `b` before `a` — different output from the
insertion-order enumeration.  (Tag and log keys are sorted and references
do preserve insertion order; only the baggage part of the claim fails.) -/
theorem C6_counterexample :
    [("b", "2"), ("a", "1")].Perm c6span.context.baggage ∧
    c6span.context.baggage = [("a", "1"), ("b", "2")] ∧
    write_trace (fun _ => "") (fun _ _ => "0") c6span
        [("b", "2"), ("a", "1")] =
      ["==>> Trace ID: 1",
       "===> Span ID: 2",
       "===> Span Duration: 0",
       "===> References: [",
       "===> ]",
       "===> Baggage items: [",
       "===>   * b: 2",
       "===>   * a: 1",
       "===> ]",
       "===> Tags: [",
       "===> ]",
       "===> Logs: [",
       "===> ]"] ∧
    write_trace (fun _ => "") (fun _ _ => "0") c6span
        [("b", "2"), ("a", "1")] ≠
      write_trace (fun _ => "") (fun _ _ => "0") c6span
        c6span.context.baggage := by
  refine ⟨by decide, by decide, by decide, by decide⟩

/-- Claim C6 (amended): in `write_trace` output, tag keys and the field
keys within each log entry are emitted in ascending sorted order and the
references block in insertion order, while the baggage-items block is
emitted in the baggage map's unspecified enumeration order — some
permutation of the stored items, not necessarily insertion order. -/
theorem C6_amended_sorted_tags_ordered_refs {F : Type} (fshow : F → String)
    (dshow : Nat → Nat → String) (span : FinishedSpan FileTracerContext F)
    (order : List (String × String))
    (horder : order.Perm span.context.baggage) :
    write_trace fshow dshow span order =
      ["==>> Trace ID: " ++ toString span.context.inner.trace_id,
       "===> Span ID: " ++ toString span.context.inner.span_id,
       "===> Span Duration: " ++ dshow span.start_time span.finish_time,
       "===> References: ["]
      ++ span.references.map refLine
      ++ ["===> ]", "===> Baggage items: ["]
      ++ order.map bagLine
      ++ ["===> ]", "===> Tags: ["]
      ++ (sortByKey span.tags).map (tagLine fshow)
      ++ ["===> ]", "===> Logs: ["]
      ++ (span.logs.map (logLines fshow)).flatten
      ++ ["===> ]"] ∧
    (order.map bagLine).Perm (span.context.baggage.map bagLine) ∧
    List.Sorted keyLE (sortByKey span.tags) ∧
    (sortByKey span.tags).Perm span.tags ∧
    (∀ lg ∈ span.logs,
      List.Sorted keyLE (sortByKey lg.fields) ∧
      (sortByKey lg.fields).Perm lg.fields) :=
  ⟨rfl, horder.map bagLine, sortByKey_sorted span.tags,
   sortByKey_perm span.tags,
   fun lg _ => ⟨sortByKey_sorted lg.fields, sortByKey_perm lg.fields⟩⟩

/-- Witness for the amended C6 at the concrete span and enumeration of the
counterexample. -/
theorem C6_witness :
    List.Sorted keyLE (sortByKey c6span.tags) ∧
    ((([("b", "2"), ("a", "1")] : List (String × String)).map
      bagLine).Perm (c6span.context.baggage.map bagLine)) :=
  ⟨(C6_amended_sorted_tags_ordered_refs (fun _ => "") (fun _ _ => "0")
      c6span [("b", "2"), ("a", "1")] (by decide)).2.2.1,
   (C6_amended_sorted_tags_ordered_refs (fun _ => "") (fun _ _ => "0")
      c6span [("b", "2"), ("a", "1")] (by decide)).2.1⟩

end Opentracing
